import Mathlib

/-!
Verification development for the polytool repository (Python).

The Python source under `src/polytool/` is shallowly embedded: pure code
becomes Lean functions, raising code returns `Except PyErr`, and the
pieces of the world the code touches (the CPython runtime executing model
generated code, the LLM provider, `json.loads`, `sys.stdout`/`sys.stderr`)
are passed in explicitly as parameters or modelled state.

Embedded modules:
  * `core/types.py`        : `Tool`, `ExecutionResult`, `Usage`, `Message`
  * `core/exceptions.py`   : the exception taxonomy (`PyErr` below)
  * `tools/registry.py`    : `ToolRegistry.register` / `get` / `execute`
  * `tools/decorator.py`   : `_generate_schema` / `_type_to_schema`
  * `sandbox/restricted.py`: `RestrictedSandbox.execute`, `_execute_code`
    wrapping and stream redirection
  * `codegen/executor.py`  : `ExecuteCodeTool.execute` result processing
  * `codegen/prompts.py`   : `build_system_prompt`
  * `agent/agent.py`       : `Agent.run`
-/

/-! ## Python values and exceptions -/

/-- A small model of the Python values that flow through the embedded code:
tool results, schema defaults, and terminal return values of sandboxed code.
`None` is represented by `Option` at each use site, mirroring the
`X | None` annotations of the source. -/
inductive PyValue
  | vStr (s : String)
  | vInt (n : Int)
  | vBool (b : Bool)
deriving DecidableEq, Repr

/-- Python `str(v)`. `str` of a string is the string itself, which is why the
agent loop line `str(result) if not isinstance(result, str) else result`
collapses to this single function. -/
def pyToString : PyValue → String
  | .vStr s => s
  | .vInt n => toString n
  | .vBool true => "True"
  | .vBool false => "False"

/-- Python `repr(v)` for the values above (string escaping is not modelled;
the development only evaluates it on escape-free strings). -/
def pyRepr : PyValue → String
  | .vStr s => "\x27" ++ s ++ "\x27"
  | .vInt n => toString n
  | .vBool true => "True"
  | .vBool false => "False"

/-- Keyword arguments of a tool call (`**kwargs`), as an association list. -/
def ArgDict := List (String × PyValue)

/-- The exceptions the embedded code raises or catches, following
`core/exceptions.py` plus the builtin and library exceptions the source
actually touches (`ValueError` in `Tool.execute`, `json.JSONDecodeError`
in the agent loop). `exc` stands for any other `Exception`. -/
inductive PyErr
  | valueError (msg : String)
  | toolError (msg : String)
  | sandboxError (msg : String)
  | jsonError (msg : String)
  | exc (excName : String) (msg : String)
deriving DecidableEq, Repr

/-- Python `str(e)` on an exception: every class in `core/exceptions.py`
calls `super().__init__(message)`, so `str(e)` is the message, and the same
holds for the builtin exceptions modelled here. -/
def pyErrMsg : PyErr → String
  | .valueError m => m
  | .toolError m => m
  | .sandboxError m => m
  | .jsonError m => m
  | .exc _ m => m

/-! ## Python string helpers

`str.strip` / `str.rstrip` with no argument strip Python whitespace;
`_indent` in `sandbox/restricted.py` is line-by-line prefixing. -/

/-- The characters Python `str.strip()` removes. -/
def isPyWs (c : Char) : Bool :=
  c == ' ' || c == '\t' || c == '\n' || c == '\r' || c == '\x0b' || c == '\x0c'

/-- Python `s.rstrip()`. -/
def pyRstrip (s : String) : String :=
  ⟨(s.data.reverse.dropWhile isPyWs).reverse⟩

/-- Python `s.lstrip()`. -/
def pyLstrip (s : String) : String :=
  ⟨s.data.dropWhile isPyWs⟩

/-- Python `s.strip()`. -/
def pyStrip (s : String) : String :=
  pyLstrip (pyRstrip s)

/-- True when the string consists only of Python whitespace (so that
`s.strip()` is falsy). -/
def isPyWsOnly (s : String) : Bool :=
  s.data.all isPyWs

/-- Python `s.split("\n")` on the underlying characters: splitting on a
single newline, keeping empty segments, always yielding at least one
segment (a structurally recursive equivalent of `String.splitOn`). -/
def splitLines : List Char → List (List Char)
  | [] => [[]]
  | c :: rest =>
      let r := splitLines rest
      if c == '\n' then [] :: r
      else (c :: r.headD []) :: r.tail

/-- Python `s.split("\n")[0]`: `str.split` always returns at least one
element, so indexing 0 is total. -/
def firstLine (s : String) : String :=
  ⟨(splitLines s.data).headD []⟩

/-! ## Declarative parameter schemas (`tools/decorator.py`)

`_type_to_schema` returns JSON-schema shaped dicts; the shapes actually
produced are `{"type": t}`, `{"type": "array", "items": ...}` and a pydantic
`model_json_schema()` (kept opaque).  `_generate_schema` then adds
per-property `description` and `default` keys, modelled as fields. -/

/-- The type part of a per-property schema produced by `_type_to_schema`. -/
inductive BaseSchema
  | simple (typeName : String)
  | array (items : BaseSchema)
  | modelSchema (modelName : String)
deriving DecidableEq, Repr

/-- One property of a generated schema: the dict returned by
`_type_to_schema`, possibly extended with `description` (from `Annotated`
metadata) and `default` keys by `_generate_schema`. -/
structure PropSchema where
  base : BaseSchema
  description : Option String := none
  default : Option PyValue := none
deriving DecidableEq, Repr

/-- The object schema `_generate_schema` returns:
`{"type": "object", "properties": ..., "required": ...}` with the
`required` key present exactly when the list is nonempty (membership in an
absent key and in an empty list coincide, so the list alone is kept). -/
structure Schema where
  properties : List (String × PropSchema) := []
  required : List String := []
deriving DecidableEq, Repr

/-- Metadata attached to a parameter through `typing.Annotated`: a bare
string, a pydantic `FieldInfo` (only its `description` is read), or
anything else (ignored by the source). -/
inductive Ann
  | strAnn (s : String)
  | fieldInfo (description : Option String)
  | otherAnn
deriving DecidableEq, Repr

/-- The Python type annotations `_type_to_schema` dispatches on.
`hOther` covers every other annotation (mapped to string). -/
inductive TypeHint
  | hStr
  | hInt
  | hFloat
  | hBool
  | hList (arg : Option TypeHint)
  | hDict
  | hNone
  | hModel (modelName : String)
  | hAnnotated (base : TypeHint) (anns : List Ann)
  | hOther

/-- Embedding of `_type_to_schema` on a present annotation (dispatch order
follows the source: `Annotated` unwrapping, `NoneType`, the primitives,
`list` with a recursively derived item schema defaulting to string,
`dict`, pydantic `BaseModel` subclasses, everything else string). -/
def typeToSchema : TypeHint → BaseSchema
  | .hAnnotated base _ => typeToSchema base
  | .hNone => .simple "null"
  | .hStr => .simple "string"
  | .hInt => .simple "integer"
  | .hFloat => .simple "number"
  | .hBool => .simple "boolean"
  | .hList none => .array (.simple "string")
  | .hList (some a) => .array (typeToSchema a)
  | .hDict => .simple "object"
  | .hModel n => .modelSchema n
  | .hOther => .simple "string"

/-- `_type_to_schema` including the `hint is None` case (absent hint maps
to string). -/
def typeToSchemaOpt : Option TypeHint → BaseSchema
  | none => .simple "string"
  | some h => typeToSchema h

/-- The `description` assigned by `_generate_schema` when the outer hint is
`Annotated`: the loop over `args[1:]` keeps the last string or described
`FieldInfo`. -/
def descriptionOf : Option TypeHint → Option String
  | some (.hAnnotated _ anns) =>
      anns.foldl (fun d a =>
        match a with
        | .strAnn s => some s
        | .fieldInfo (some s) => some s
        | _ => d) none
  | _ => none

/-- `inspect.Parameter.kind`. -/
inductive ParamKind
  | positionalOnly
  | positionalOrKeyword
  | varPositional
  | keywordOnly
  | varKeyword
deriving DecidableEq, Repr

/-- One entry of `inspect.signature(func).parameters`: name, kind, and
default (`none` models `inspect.Parameter.empty`). -/
structure Param where
  name : String
  kind : ParamKind := .positionalOrKeyword
  default : Option PyValue := none
deriving DecidableEq, Repr

/-- Introspection view of a Python callable as `_generate_schema` sees it:
`inspect.signature(func)` (which can raise, e.g. on some builtins) and
`get_type_hints(func, include_extras=True)` (which can raise on
unresolvable annotations). -/
structure PyCallable where
  signature : Except String (List Param)
  typeHints : Except String (List (String × TypeHint))

/-- `hints.get(param_name)`. -/
def lookupHint (hs : List (String × TypeHint)) (n : String) : Option TypeHint :=
  (hs.find? (fun h => h.1 == n)).map (fun h => h.2)

/-- The skip condition of the parameter loop in `_generate_schema`:
`self`/`cls` and variadic parameters produce no property. -/
def skipParam (p : Param) : Bool :=
  p.name == "self" || p.name == "cls" ||
    p.kind == .varPositional || p.kind == .varKeyword

/-- The per-property schema `_generate_schema` builds for one parameter:
type part from `_type_to_schema`, description from `Annotated` metadata,
default copied from the signature when present. -/
def mkPropSchema (hs : List (String × TypeHint)) (p : Param) : PropSchema :=
  let hint := lookupHint hs p.name
  { base := typeToSchemaOpt hint
    description := descriptionOf hint
    default := p.default }

/-- The parameter loop of `_generate_schema`: builds `properties` in
signature order and collects names without defaults into `required`. -/
def genProps (hs : List (String × TypeHint)) : List Param → List (String × PropSchema) × List String
  | [] => ([], [])
  | p :: rest =>
      let (props, req) := genProps hs rest
      if skipParam p then (props, req)
      else
        ((p.name, mkPropSchema hs p) :: props,
         match p.default with
         | some _ => req
         | none => p.name :: req)

/-- The `try: hints = get_type_hints(...) except Exception: hints = {}`
prologue of `_generate_schema`: a failing hint resolution falls back to the
empty hint dict. -/
def hintsFallback (f : PyCallable) : List (String × TypeHint) :=
  match f.typeHints with
  | .ok h => h
  | .error _ => []

/-- Embedding of `_generate_schema`.  `inspect.signature` is called outside
any handler, so its failure propagates; only `get_type_hints` is wrapped in
`try/except` (see `hintsFallback`). -/
def generateSchema (f : PyCallable) : Except String Schema :=
  match f.signature with
  | .error e => .error e
  | .ok params =>
      let pr := genProps (hintsFallback f) params
      .ok { properties := pr.1, required := pr.2 }

/-! ## Tool and ToolRegistry (`core/types.py`, `tools/registry.py`) -/

/-- `ToolSource` enum. -/
inductive ToolSource
  | native
  | mcp
  | langchain
deriving DecidableEq, Repr

/-- The `Tool` pydantic model.  The private `_executor` is an optional
callable; its result may or may not be awaitable, which the embedding
collapses into a single result (awaiting does not change the value). -/
structure Tool where
  name : String
  description : String
  parameters : Schema := {}
  source : ToolSource := .native
  executor : Option (ArgDict → Except PyErr PyValue) := none

/-- `Tool.execute`: raises `ValueError` when no executor is bound,
otherwise calls the executor (and awaits the result if awaitable). -/
def Tool.executeM (t : Tool) (args : ArgDict) : Except PyErr PyValue :=
  match t.executor with
  | none => .error (.valueError ("Tool \x27" ++ t.name ++ "\x27 has no executor"))
  | some f => f args

/-- `_json_type_to_python` in `core/types.py`. -/
def jsonTypeToPython (t : String) : String :=
  if t == "string" then "str"
  else if t == "integer" then "int"
  else if t == "number" then "float"
  else if t == "boolean" then "bool"
  else if t == "array" then "list"
  else if t == "object" then "dict"
  else "Any"

/-- The `"type"` entry of a per-property schema dict, as `Tool.get_signature`
reads it (`schema.get("type", "Any")`; every shape produced by
`_type_to_schema` carries a type, with pydantic model schemas typed
`object`). -/
def BaseSchema.typeField : BaseSchema → String
  | .simple t => t
  | .array _ => "array"
  | .modelSchema _ => "object"

/-- `Tool.get_signature`: renders a Python-style async signature from the
declarative schema.  An absent default renders as `repr("None")` because the
source fetches `schema.get("default", "None")` with the string `"None"` as
fallback. -/
def Tool.getSignature (t : Tool) : String :=
  let params := t.parameters.properties.map (fun np =>
    let typeHint := jsonTypeToPython np.2.base.typeField
    if np.1 ∈ t.parameters.required then np.1 ++ ": " ++ typeHint
    else np.1 ++ ": " ++ typeHint ++ " = " ++ pyRepr (np.2.default.getD (.vStr "None")))
  "async def " ++ t.name ++ "(" ++ String.intercalate ", " params ++ ") -> Any"

/-- A callable passed to `ToolRegistry.register` instead of a `Tool`:
only its `__name__` and the `tool` attribute set by the `@tool` decorator
matter (`get_tool_from_func`). -/
structure PyFunc where
  name : String
  toolAttr : Option Tool := none

/-- The `Tool | Callable` argument of `ToolRegistry.register`. -/
inductive RegisterArg
  | toolArg (t : Tool)
  | funcArg (f : PyFunc)

/-- `ToolRegistry`: the insertion-ordered dict `_tools`, as an association
list with unique keys. -/
structure ToolRegistry where
  tools : List (String × Tool)

/-- Dict lookup `self._tools[name]` / membership `name in self._tools`. -/
def ToolRegistry.find (r : ToolRegistry) (n : String) : Option Tool :=
  (r.tools.find? (fun nt => nt.1 == n)).map (fun nt => nt.2)

/-- `self._tools.keys()`. -/
def ToolRegistry.getNames (r : ToolRegistry) : List String :=
  r.tools.map (fun nt => nt.1)

/-- `self._tools.values()` (`get_all`). -/
def ToolRegistry.getAll (r : ToolRegistry) : List Tool :=
  r.tools.map (fun nt => nt.2)

/-- `ToolRegistry.register`: resolves the `Tool | Callable` argument
(raising `ToolError` on an undecorated callable), raises `ToolError` on a
duplicate name, otherwise inserts (a fresh dict key appends in insertion
order) and returns the stored `Tool`. -/
def ToolRegistry.register (r : ToolRegistry) (arg : RegisterArg) :
    Except PyErr (ToolRegistry × Tool) :=
  let toolE : Except PyErr Tool :=
    match arg with
    | .toolArg t => .ok t
    | .funcArg f =>
        match f.toolAttr with
        | some t => .ok t
        | none => .error (.toolError ("Function " ++ f.name ++ " is not decorated with @tool"))
  match toolE with
  | .error e => .error e
  | .ok tool =>
      match r.find tool.name with
      | some _ => .error (.toolError ("Tool \x27" ++ tool.name ++ "\x27 already registered"))
      | none => .ok ({ tools := r.tools ++ [(tool.name, tool)] }, tool)

/-- `ToolRegistry.get`: the `ToolError` on a miss lists all known names. -/
def ToolRegistry.getM (r : ToolRegistry) (n : String) : Except PyErr Tool :=
  match r.find n with
  | some t => .ok t
  | none =>
      .error (.toolError ("Tool \x27" ++ n ++ "\x27 not found. Available: " ++
        String.intercalate ", " r.getNames))

/-- `ToolRegistry.execute`: `get` then `Tool.execute`. -/
def ToolRegistry.executeM (r : ToolRegistry) (n : String) (args : ArgDict) :
    Except PyErr PyValue :=
  match r.getM n with
  | .error e => .error e
  | .ok t => t.executeM args

/-! ## RestrictedSandbox (`sandbox/restricted.py`) -/

/-- `ExecutionResult` from `core/types.py`, with pydantic defaults. -/
structure ExecutionResult where
  success : Bool
  stdout : String := ""
  stderr : String := ""
  return_value : Option PyValue := none
  error : Option String := none
  execution_time_ms : Float := 0

/-- Identity of an object bound to `sys.stdout` / `sys.stderr`: either a
pre-existing stream or one of the fresh `StringIO` capture buffers the
sandbox allocates. -/
inductive StreamTag
  | handle (id : Nat)
  | captureBuffer (id : Nat)
deriving DecidableEq, Repr

/-- The mutable interpreter state `RestrictedSandbox.execute` touches:
which objects `sys.stdout` and `sys.stderr` point at. -/
structure SysState where
  stdoutStream : StreamTag
  stderrStream : StreamTag
deriving DecidableEq, Repr

/-- What running the wrapped code under `asyncio.wait_for` does: return
normally, hit the deadline, or raise — in each case together with whatever
the capture buffers hold when control comes back. -/
inductive RunOutcome
  | ret (stdoutText stderrText : String) (returnValue : Option PyValue)
  | timedOut (stdoutText stderrText : String)
  | raised (excName excMsg : String) (stdoutText stderrText : String)

/-- The stdout text a `RunOutcome` left in the capture buffer. -/
def RunOutcome.capturedStdout : RunOutcome → String
  | .ret o _ _ => o
  | .timedOut o _ => o
  | .raised _ _ o _ => o

/-- The stderr text a `RunOutcome` left in the capture buffer. -/
def RunOutcome.capturedStderr : RunOutcome → String
  | .ret _ e _ => e
  | .timedOut _ e => e
  | .raised _ _ _ e => e

/-- The external CPython facilities `RestrictedSandbox.execute` relies on:
`ast.parse` (syntax validation, raising `SyntaxError` rendered to a
message) and executing the wrapped source in the tool namespace under the
event loop (`exec` + `await __polytool_main__()` under `asyncio.wait_for`). -/
structure PyEnv where
  astParse : String → Except String Unit
  runWrapped : String → List Tool → RunOutcome

/-- `_indent(code, 4)` from `sandbox/restricted.py`: prefix four spaces to
every line whose own `strip()` is nonempty. -/
def pyIndent (code : String) : String :=
  String.intercalate "\n" ((splitLines code.data).map (fun lchars =>
    let line : String := ⟨lchars⟩
    if pyStrip line == "" then line else "    " ++ line))

/-- The wrapping performed by `RestrictedSandbox._execute_code`: rstrip and
indent the code, substitute `pass` when the body is blank, and wrap it in
the `__polytool_main__` async entry point with a trailing `pass`. -/
def wrapCode (code : String) : String :=
  let indented := pyIndent (pyRstrip code)
  let indented := if pyStrip indented == "" then "    pass" else indented
  "async def __polytool_main__():\n" ++ indented ++ "\n    pass\n"

/-- The wrapped source produced for an empty (or whitespace-only) body. -/
def passProgram : String :=
  "async def __polytool_main__():\n    pass\n    pass\n"

/-- Embedding of `RestrictedSandbox.execute`, threading the `sys` stream
state.  Paths, in source order: syntax rejection before any redirection;
then redirect both streams to fresh capture buffers, run the wrapped code
with a deadline, build the success / timeout / runtime-fault result, and
restore the saved streams in `finally`.  `timeoutArg`/`selfTimeout` model
the `timeout or self.timeout` resolution (Python `or` treats `0.0` as
falsy); `dt` stands for the `time.time()` based elapsed milliseconds. -/
def RestrictedSandbox.executeM (env : PyEnv) (s0 : SysState) (code : String)
    (tools : List Tool) (timeoutArg : Option Float) (selfTimeout : Float)
    (dt : Float) : ExecutionResult × SysState :=
  let timeout := match timeoutArg with
    | none => selfTimeout
    | some x => if x == 0.0 then selfTimeout else x
  match env.astParse code with
  | .error e =>
      ({ success := false, error := some ("Syntax error: " ++ e),
         execution_time_ms := dt }, s0)
  | .ok _ =>
      let oldStdout := s0.stdoutStream
      let oldStderr := s0.stderrStream
      let redirected : SysState :=
        { stdoutStream := .captureBuffer 0, stderrStream := .captureBuffer 1 }
      let res : ExecutionResult :=
        match env.runWrapped (wrapCode code) tools with
        | .ret o e rv =>
            { success := true, stdout := o, stderr := e, return_value := rv,
              execution_time_ms := dt }
        | .timedOut o e =>
            { success := false, stdout := o, stderr := e,
              error := some ("Execution timed out after " ++ toString timeout ++ "s"),
              execution_time_ms := dt }
        | .raised n m o e =>
            { success := false, stdout := o, stderr := e,
              error := some (n ++ ": " ++ m),
              execution_time_ms := dt }
      (res, { redirected with stdoutStream := oldStdout, stderrStream := oldStderr })

/-! ## ExecuteCodeTool (`codegen/executor.py`) -/

/-- The tail of `ExecuteCodeTool.execute` after the sandbox returned a
result: on failure, raise `SandboxError` with the structured message
(`result.error or "Unknown error"`, appending stderr when nonempty); on
success, trimmed stdout, falling back to the stringified return value when
stdout is blank and the value is not `None`, falling back to the
`"(no output)"` sentinel when the output is still empty. -/
def ExecuteCodeTool.processResult (result : ExecutionResult) : Except PyErr String :=
  if result.success = false then
    let errorMsg := match result.error with
      | some m => if m == "" then "Unknown error" else m
      | none => "Unknown error"
    let errorMsg := if result.stderr == "" then errorMsg
      else errorMsg ++ "\nStderr: " ++ result.stderr
    .error (.sandboxError ("Code execution failed: " ++ errorMsg))
  else
    let output := pyStrip result.stdout
    let output :=
      if output == "" ∧ result.return_value ≠ none then
        match result.return_value with
        | some rv => pyToString rv
        | none => output
      else output
    .ok (if output == "" then "(no output)" else output)

/-! ## System prompt (`codegen/prompts.py`) -/

/-- `build_system_prompt`: caller preamble (or a fixed default when absent
or empty), a fixed usage blurb, and one signature block per tool other than
`execute_code`, joined with newlines. -/
def buildSystemPrompt (tools : List Tool) (basePrompt : Option String) : String :=
  let head := match basePrompt with
    | some b => if b == "" then "You are a helpful assistant with access to tools." else b
    | none => "You are a helpful assistant with access to tools."
  let blurb := "\n## Tool Usage\n\nFor simple tasks (1-2 tool calls), call tools directly.\nFor complex tasks requiring multiple tools or data processing, use execute_code.\n"
  let toolParts := tools.foldr (fun t acc =>
    if t.name == "execute_code" then acc
    else (t.getSignature ++ "\n    \"\"\"" ++ firstLine t.description ++ "\"\"\"") :: "" :: acc) []
  String.intercalate "\n" ([head, blurb, "## Available Tools\n```python"] ++ toolParts ++ ["```"])

/-! ## Agent loop (`agent/agent.py`) -/

/-- One requested tool call as it arrives from the model backend:
`tool_call["id"]`, `tool_call["function"]["name"]`, and the serialized
arguments string `tool_call["function"]["arguments"]`. -/
structure ToolCallReq where
  id : String
  name : String
  args : String
deriving DecidableEq, Repr

/-- The `Message` pydantic model. -/
structure Message where
  role : String
  content : Option String := none
  tool_calls : Option (List ToolCallReq) := none
  tool_call_id : Option String := none
  name : Option String := none
deriving DecidableEq, Repr

/-- The `Usage` accounting record (the cost-estimate fields the agent loop
never touches are omitted). -/
structure Usage where
  input_tokens : Nat := 0
  output_tokens : Nat := 0
  total_tokens : Nat := 0
  tool_calls : Nat := 0
  ptc_executions : Nat := 0
deriving DecidableEq, Repr

/-- `AgentResult`. -/
structure AgentResult where
  output : String
  usage : Usage := {}
  messages : List Message := []
  tool_calls_made : Nat := 0
  ptc_used : Bool := false
deriving DecidableEq, Repr

/-- The token accumulation performed once per iteration of `Agent.run`. -/
def addTokens (u v : Usage) : Usage :=
  { u with
    input_tokens := u.input_tokens + v.input_tokens
    output_tokens := u.output_tokens + v.output_tokens
    total_tokens := u.total_tokens + v.total_tokens }

/-- Python truthiness of `response.tool_calls` (`None` and `[]` are both
falsy). -/
def Message.hasToolCalls (m : Message) : Bool :=
  match m.tool_calls with
  | some (_ :: _) => true
  | _ => false

/-- The model backend (`LiteLLMProvider.generate`), abstracted as a pure
function of the conversation and the tool list to the next assistant
message and that round's token usage. -/
def Provider := List Message → List Tool → Message × Usage

/-- A model of `json.loads` (Python standard library, outside the
repository), fixed only on the behaviours the concrete scenarios below
exercise: the empty JSON object parses to the empty keyword dict, and a
string that is not JSON raises `json.JSONDecodeError` (whose `str` starts
with "Expecting value").  Theorems quantify over an arbitrary parse
function; this definition only instantiates them. -/
def jsonLoads (s : String) : Except PyErr ArgDict :=
  if s == "\x7b\x7d" then .ok []
  else .error (.jsonError "Expecting value: line 1 column 1 (char 0)")

/-- The mutable state of one `Agent.run` invocation: the conversation, the
accumulated usage, and the `tool_calls_made` / `ptc_used` counters. -/
structure LoopSt where
  conv : List Message
  usage : Usage
  tcm : Nat
  ptc : Bool

/-- The body of the `for tool_call in response.tool_calls` loop: bump
`tool_calls_made`, parse the arguments with `json.loads` (outside any
handler, so a parse failure propagates), attribute the call to direct or
code-execution usage, execute through the registry with any `Exception`
converted to an `"Error: ..."` string, and append the tool-role response
message tagged with the call id and tool name. -/
def Agent.processToolCall (reg : ToolRegistry) (parse : String → Except PyErr ArgDict)
    (st : LoopSt) (tc : ToolCallReq) : Except PyErr LoopSt :=
  let tcm := st.tcm + 1
  match parse tc.args with
  | .error e => .error e
  | .ok args =>
      let up : Usage × Bool :=
        if tc.name == "execute_code" then
          ({ st.usage with ptc_executions := st.usage.ptc_executions + 1 }, true)
        else
          ({ st.usage with tool_calls := st.usage.tool_calls + 1 }, st.ptc)
      let resultStr := match reg.executeM tc.name args with
        | .ok v => pyToString v
        | .error e => "Error: " ++ pyErrMsg e
      let toolMsg : Message := { role := "tool", content := some resultStr,
                                 tool_call_id := some tc.id, name := some tc.name }
      .ok { conv := st.conv ++ [toolMsg], usage := up.1, tcm := tcm, ptc := up.2 }

/-- Sequential dispatch of one assistant message's tool calls, in order. -/
def Agent.processToolCalls (reg : ToolRegistry) (parse : String → Except PyErr ArgDict) :
    LoopSt → List ToolCallReq → Except PyErr LoopSt
  | st, [] => .ok st
  | st, tc :: rest =>
      match Agent.processToolCall reg parse st tc with
      | .error e => .error e
      | .ok st2 => Agent.processToolCalls reg parse st2 rest

/-- The `for _ in range(self.max_iterations)` loop of `Agent.run`.  The
`Nat` paired with the result is instrumentation only: it counts how many
model rounds (loop iterations) were actually executed, so that theorems can
speak about the iteration count; the `AgentResult` component is exactly
what the source returns. -/
def Agent.runLoop (provider : Provider) (reg : ToolRegistry)
    (parse : String → Except PyErr ArgDict) :
    Nat → LoopSt → Except PyErr (AgentResult × Nat)
  | 0, st =>
      .ok ({ output := "[Max iterations reached]", usage := st.usage,
             messages := st.conv, tool_calls_made := st.tcm, ptc_used := st.ptc }, 0)
  | Nat.succ n, st =>
      let ru := provider st.conv reg.getAll
      let usage := addTokens st.usage ru.2
      let conv := st.conv ++ [ru.1]
      if ru.1.hasToolCalls = false then
        .ok ({ output := ru.1.content.getD "", usage := usage, messages := conv,
               tool_calls_made := st.tcm, ptc_used := st.ptc }, 1)
      else
        match Agent.processToolCalls reg parse
            { conv := conv, usage := usage, tcm := st.tcm, ptc := st.ptc }
            (ru.1.tool_calls.getD []) with
        | .error e => .error e
        | .ok st2 =>
            match Agent.runLoop provider reg parse n st2 with
            | .error e => .error e
            | .ok rk => .ok (rk.1, rk.2 + 1)

/-- Embedding of `Agent.run`: seed the conversation with a synthesized
system message unless one is already first, append the user prompt, and
enter the bounded loop. -/
def Agent.runM (provider : Provider) (reg : ToolRegistry)
    (parse : String → Except PyErr ArgDict) (systemPrompt : Option String)
    (maxIterations : Nat) (prompt : String) (messages : List Message) :
    Except PyErr (AgentResult × Nat) :=
  let conversation := messages
  let conversation :=
    if conversation.head?.map Message.role = some "system" then conversation
    else { role := "system",
           content := some (buildSystemPrompt reg.getAll systemPrompt) } :: conversation
  let conversation := conversation ++ [{ role := "user", content := some prompt }]
  Agent.runLoop provider reg parse maxIterations
    { conv := conversation, usage := {}, tcm := 0, ptc := false }

/-! ## Concrete instances used by witnesses and counterexamples -/

/-- A registered tool without a bound executor. -/
def noExecutorTool : Tool :=
  { name := "mytool", description := "A tool whose executor was never bound" }

/-- A sample tool named `search`. -/
def searchTool : Tool :=
  { name := "search", description := "Search the web" }

/-- A second, different tool also named `search`. -/
def searchTool2 : Tool :=
  { name := "search", description := "A different search implementation" }

/-- A registry already holding `searchTool`. -/
def sampleRegistry : ToolRegistry := { tools := [("search", searchTool)] }

/-- The empty registry. -/
def emptyRegistry : ToolRegistry := { tools := [] }

/-! ## Claim C3: duplicate registration -/

/-- Helper: `find?` distributes over append when the first list misses. -/
theorem find?_append_of_none {α : Type} (p : α → Bool) :
    ∀ (l1 l2 : List α), l1.find? p = none → (l1 ++ l2).find? p = l2.find? p := by
  intro l1 l2 h
  induction l1 with
  | nil => rfl
  | cons a l ih =>
      rw [List.find?_cons] at h
      rw [List.cons_append, List.find?_cons]
      cases hp : p a with
      | true => rw [hp] at h; cases h
      | false =>
          rw [hp] at h
          exact ih h

/-- Claim C3: registering a second `Tool` under a name already present in a
`ToolRegistry` always fails with the duplicate-name `ToolError`, and the
registry still maps that name to the originally registered tool, unchanged;
a successful `register` stores and returns the argument `Tool` itself. -/
theorem registry_register_duplicate_and_identity :
    (∀ (r : ToolRegistry) (t0 t1 : Tool), r.find t1.name = some t0 →
      r.register (.toolArg t1) =
        .error (.toolError ("Tool \x27" ++ t1.name ++ "\x27 already registered")) ∧
      r.find t1.name = some t0) ∧
    (∀ (r : ToolRegistry) (t : Tool), r.find t.name = none →
      ∃ r2, r.register (.toolArg t) = .ok (r2, t) ∧ r2.find t.name = some t) := by
  constructor
  · intro r t0 t1 h
    refine ⟨?_, h⟩
    simp only [ToolRegistry.register, h]
  · intro r t h
    refine ⟨{ tools := r.tools ++ [(t.name, t)] }, ?_, ?_⟩
    · simp only [ToolRegistry.register, h]
    · have hfind : r.tools.find? (fun nt => nt.1 == t.name) = none := by
        unfold ToolRegistry.find at h
        exact Option.map_eq_none'.mp h
      unfold ToolRegistry.find
      rw [find?_append_of_none _ _ _ hfind]
      simp [List.find?_cons]

/-- Witness for C3 at concrete inputs: registering a second `search` tool
into a registry holding one fails with the duplicate error and leaves the
original; registering into the empty registry succeeds and stores the
argument tool. -/
theorem registry_register_duplicate_and_identity_witness :
    (sampleRegistry.register (.toolArg searchTool2) =
        .error (.toolError "Tool \x27search\x27 already registered") ∧
      sampleRegistry.find "search" = some searchTool) ∧
    (∃ r2, emptyRegistry.register (.toolArg searchTool) = .ok (r2, searchTool) ∧
      r2.find "search" = some searchTool) :=
  ⟨registry_register_duplicate_and_identity.1 sampleRegistry searchTool searchTool2 rfl,
   registry_register_duplicate_and_identity.2 emptyRegistry searchTool rfl⟩

/-! ## Claim C7: Tool.execute with no bound executor -/

/-- Counterexample to claim C7 as stated: executing a `Tool` whose executor
is unbound raises the builtin `ValueError`, which is not of the `ToolError`
kind defined in `core/exceptions.py`. -/
theorem tool_execute_no_executor_counterexample :
    Tool.executeM noExecutorTool [] =
      .error (.valueError "Tool \x27mytool\x27 has no executor") ∧
    ∀ m, Tool.executeM noExecutorTool [] ≠ .error (.toolError m) := by
  constructor
  · rfl
  · intro m h
    exact PyErr.noConfusion (Except.error.inj h)

/-- Claim C7 as amended: calling `execute` on a `Tool` with no bound
executor fails, with a `ValueError` (not a `ToolError`) whose message names
the tool. -/
theorem tool_execute_no_executor (t : Tool) (args : ArgDict)
    (h : t.executor = none) :
    t.executeM args =
      .error (.valueError ("Tool \x27" ++ t.name ++ "\x27 has no executor")) := by
  simp only [Tool.executeM, h]

/-- Witness for the amended C7 at a concrete tool. -/
theorem tool_execute_no_executor_witness :
    Tool.executeM noExecutorTool [] =
      .error (.valueError "Tool \x27mytool\x27 has no executor") :=
  tool_execute_no_executor noExecutorTool [] rfl

/-! ## Claim C4: execute_code output selection -/

/-- Helper: the success branch of `ExecuteCodeTool.execute`, written out. -/
theorem processResult_success_eq (r : ExecutionResult) (h : r.success = true) :
    ExecuteCodeTool.processResult r =
      .ok (let o := pyStrip r.stdout
           let o := if o == "" ∧ r.return_value ≠ none then
               match r.return_value with
               | some rv => pyToString rv
               | none => o
             else o
           if o == "" then "(no output)" else o) := by
  simp only [ExecuteCodeTool.processResult, h]
  simp

/-- Counterexample to claim C4 as stated: a successful execution whose
trimmed stdout is empty and whose terminal return value is the non-`None`
value `""` yields the `"(no output)"` sentinel, not the stringified return
value (which is the empty string). -/
theorem execute_code_output_counterexample :
    ExecuteCodeTool.processResult
        { success := true, stdout := "  ", return_value := some (.vStr "") } =
      .ok "(no output)" ∧
    pyToString (.vStr "") ≠ "(no output)" := by
  constructor
  · rfl
  · decide

/-- Claim C4 as amended: on success, `ExecuteCodeTool.execute` returns the
trimmed stdout when nonempty; when trimmed stdout is empty it returns the
stringified terminal return value provided that value is not `None` and its
stringification is nonempty; and when trimmed stdout is empty and the
return value is `None` or stringifies to the empty string, it returns
exactly `"(no output)"`. -/
theorem execute_code_output (r : ExecutionResult) (h : r.success = true) :
    (pyStrip r.stdout ≠ "" → ExecuteCodeTool.processResult r = .ok (pyStrip r.stdout)) ∧
    (∀ rv, pyStrip r.stdout = "" → r.return_value = some rv → pyToString rv ≠ "" →
      ExecuteCodeTool.processResult r = .ok (pyToString rv)) ∧
    (pyStrip r.stdout = "" →
      (r.return_value = none ∨ ∃ rv, r.return_value = some rv ∧ pyToString rv = "") →
      ExecuteCodeTool.processResult r = .ok "(no output)") := by
  rw [processResult_success_eq r h]
  refine ⟨?_, ?_, ?_⟩
  · intro hne
    have hb : (pyStrip r.stdout == "") = false := by
      cases hbe : pyStrip r.stdout == "" with
      | true => exact absurd (eq_of_beq hbe) hne
      | false => rfl
    simp [hb]
  · intro rv hs hrv hne
    simp [hs, hrv]
    intro hfalse
    exact absurd hfalse hne
  · intro hs hcases
    rcases hcases with hnone | ⟨rv, hrv, hrvs⟩
    · simp [hs, hnone]
    · simp [hs, hrv, hrvs]

/-- Witness for the amended C4: empty stdout with return value `7` yields
`"7"`. -/
theorem execute_code_output_witness :
    ExecuteCodeTool.processResult
        { success := true, stdout := "", return_value := some (.vInt 7) } =
      .ok "7" :=
  (execute_code_output { success := true, stdout := "", return_value := some (.vInt 7) }
      rfl).2.1 (.vInt 7) rfl rfl (by decide)

/-! ## Sandbox claims C5, C6, C10 -/

/-- The `sys` stream state before a sandbox call, for concrete scenarios. -/
def initialSys : SysState := { stdoutStream := .handle 1, stderrStream := .handle 2 }

/-- An environment in which `ast.parse` rejects the code. -/
def syntaxFailEnv : PyEnv :=
  { astParse := fun _ => .error "invalid syntax (<unknown>, line 1)",
    runWrapped := fun _ _ => .ret "" "" none }

/-- An environment in which the code parses and runs to completion with
some captured output. -/
def okRunEnv : PyEnv :=
  { astParse := fun _ => .ok (),
    runWrapped := fun _ _ => .ret "out" "err" none }

/-- An environment in which the code parses and the wrapped entry point
returns `None` having printed nothing. -/
def trivialRunEnv : PyEnv :=
  { astParse := fun _ => .ok (),
    runWrapped := fun _ _ => .ret "" "" none }

/-- Claim C5: every `ExecutionResult` coming back from
`RestrictedSandbox.execute` with `success = false` carries an error
message.  The companion half of the claim — that `stdout` and `stderr` are
always present strings — holds by construction: both are total `String`
fields of `ExecutionResult`, populated with `""` by default on the
pre-execution path and with the captured text on every other path. -/
theorem sandbox_failure_has_error (env : PyEnv) (s0 : SysState) (code : String)
    (tools : List Tool) (timeoutArg : Option Float) (selfTimeout dt : Float)
    (h : (RestrictedSandbox.executeM env s0 code tools timeoutArg selfTimeout dt).1.success = false) :
    ((RestrictedSandbox.executeM env s0 code tools timeoutArg selfTimeout dt).1.error).isSome = true := by
  simp only [RestrictedSandbox.executeM] at h ⊢
  cases hA : env.astParse code with
  | error e => simp [hA]
  | ok u =>
      rw [hA] at h
      cases hR : env.runWrapped (wrapCode code) tools with
      | ret o e rv => rw [hR] at h; simp at h
      | timedOut o e => simp [hA, hR]
      | raised n m o e => simp [hA, hR]

/-- Witness for C5: a syntax-rejected execution fails and carries an error
message. -/
theorem sandbox_failure_has_error_witness :
    (RestrictedSandbox.executeM syntaxFailEnv initialSys "def f(:" [] none 60.0 1.0).1.success = false ∧
    ((RestrictedSandbox.executeM syntaxFailEnv initialSys "def f(:" [] none 60.0 1.0).1.error).isSome = true :=
  ⟨rfl, sandbox_failure_has_error syntaxFailEnv initialSys "def f(:" [] none 60.0 1.0 rfl⟩

/-- Claim C6: on every exit path of `RestrictedSandbox.execute` that
reaches execution (success, timeout and runtime fault alike) the
`sys.stdout`/`sys.stderr` bindings in place before the call are restored
afterward, and the result carries exactly the output captured during
execution; the modelled interpreter state is left otherwise untouched. -/
theorem sandbox_restores_streams (env : PyEnv) (s0 : SysState) (code : String)
    (tools : List Tool) (timeoutArg : Option Float) (selfTimeout dt : Float)
    (h : ∃ u, env.astParse code = .ok u) :
    (RestrictedSandbox.executeM env s0 code tools timeoutArg selfTimeout dt).2 = s0 ∧
    (RestrictedSandbox.executeM env s0 code tools timeoutArg selfTimeout dt).1.stdout =
      (env.runWrapped (wrapCode code) tools).capturedStdout ∧
    (RestrictedSandbox.executeM env s0 code tools timeoutArg selfTimeout dt).1.stderr =
      (env.runWrapped (wrapCode code) tools).capturedStderr := by
  obtain ⟨u, hA⟩ := h
  obtain ⟨so, se⟩ := s0
  cases hR : env.runWrapped (wrapCode code) tools <;>
    simp [RestrictedSandbox.executeM, hA, hR,
      RunOutcome.capturedStdout, RunOutcome.capturedStderr]

/-- Witness for C6: a concrete completed run restores the streams and
carries the captured "out"/"err" text. -/
theorem sandbox_restores_streams_witness :
    (RestrictedSandbox.executeM okRunEnv initialSys "print(1)" [] none 60.0 1.0).2 = initialSys ∧
    (RestrictedSandbox.executeM okRunEnv initialSys "print(1)" [] none 60.0 1.0).1.stdout = "out" ∧
    (RestrictedSandbox.executeM okRunEnv initialSys "print(1)" [] none 60.0 1.0).1.stderr = "err" :=
  sandbox_restores_streams okRunEnv initialSys "print(1)" [] none 60.0 1.0 ⟨(), rfl⟩

/-- Helper: `rstrip` of a whitespace-only string is empty. -/
theorem pyRstrip_wsOnly (s : String) (h : isPyWsOnly s = true) : pyRstrip s = "" := by
  unfold pyRstrip
  have hd : s.data.reverse.dropWhile isPyWs = [] := by
    rw [List.dropWhile_eq_nil_iff]
    intro x hx
    exact List.all_eq_true.mp h x (List.mem_reverse.mp hx)
  rw [hd]
  rfl

/-- Helper: wrapping a whitespace-only body produces the all-`pass`
program. -/
theorem wrapCode_wsOnly (code : String) (h : isPyWsOnly code = true) :
    wrapCode code = passProgram := by
  unfold wrapCode
  rw [pyRstrip_wsOnly code h]
  rfl

/-- Claim C10: executing an empty or whitespace-only code string in the
restricted sandbox succeeds with empty stdout, empty stderr and a `None`
return value.  The two facts about the external interpreter are taken as
hypotheses, discharged concretely in the witness: `ast.parse` accepts a
whitespace-only module, and running the all-`pass` wrapper returns `None`
and prints nothing. -/
theorem sandbox_ws_code_success (env : PyEnv) (s0 : SysState) (code : String)
    (tools : List Tool) (timeoutArg : Option Float) (selfTimeout dt : Float)
    (hws : isPyWsOnly code = true)
    (hast : env.astParse code = .ok ())
    (hrun : env.runWrapped passProgram tools = .ret "" "" none) :
    (RestrictedSandbox.executeM env s0 code tools timeoutArg selfTimeout dt).1 =
      { success := true, stdout := "", stderr := "", return_value := none,
        error := none, execution_time_ms := dt } := by
  simp [RestrictedSandbox.executeM, hast, wrapCode_wsOnly code hws, hrun]

/-- Witness for C10 at the whitespace-only code string `"  \n"`. -/
theorem sandbox_ws_code_success_witness :
    (RestrictedSandbox.executeM trivialRunEnv initialSys "  \n" [] none 60.0 2.0).1 =
      { success := true, stdout := "", stderr := "", return_value := none,
        error := none, execution_time_ms := 2.0 } :=
  sandbox_ws_code_success trivialRunEnv initialSys "  \n" [] none 60.0 2.0
    (by decide) rfl rfl

/-! ## Claims C8 and C9: schema synthesis -/

/-- A callable whose signature cannot be introspected
(`inspect.signature` raises). -/
def unintrospectableCallable : PyCallable :=
  { signature := .error "unsupported callable", typeHints := .ok [] }

/-- A callable with one parameter whose type hints cannot be resolved
(`get_type_hints` raises). -/
def hintFailCallable : PyCallable :=
  { signature := .ok [{ name := "x" }],
    typeHints := .error "name \x27Missing\x27 is not defined" }

/-- A callable with a skipped `self`, a required `x: int` and a defaulted
`y: int = 5`. -/
def sampleCallable : PyCallable :=
  { signature := .ok [{ name := "self" }, { name := "x" },
      { name := "y", default := some (.vInt 5) }],
    typeHints := .ok [("x", .hInt), ("y", .hInt)] }

/-- The defaulted parameter of `sampleCallable`. -/
def sampleParamY : Param := { name := "y", default := some (.vInt 5) }

/-- The schema `_generate_schema` yields for `sampleCallable`. -/
def sampleGenSchema : Schema :=
  { properties := [("x", { base := .simple "integer" }),
                   ("y", { base := .simple "integer", default := some (.vInt 5) })],
    required := ["x"] }

/-- Counterexample to claim C9 as stated: schema synthesis is not total —
a callable whose signature cannot be introspected makes `_generate_schema`
fail — and the tolerated failure (unresolvable type hints) does not fall
back to an empty object schema but to string-typed properties derived from
the signature. -/
theorem generate_schema_counterexample :
    generateSchema unintrospectableCallable = .error "unsupported callable" ∧
    generateSchema hintFailCallable =
      .ok { properties := [("x", { base := .simple "string" })], required := ["x"] } ∧
    ({ properties := [("x", { base := .simple "string" })], required := ["x"] } : Schema) ≠ {} := by
  refine ⟨rfl, rfl, ?_⟩
  decide

/-- Claim C9 as amended: schema synthesis succeeds for every callable whose
signature is introspectable, and a type-hint resolution failure is handled
by falling back to the empty hint dict (so every parameter is treated as
unannotated), not by failing and not by emptying the schema. -/
theorem generate_schema_hint_fallback (f : PyCallable) (params : List Param)
    (hsig : f.signature = .ok params) :
    (∃ s, generateSchema f = .ok s) ∧
    (∀ e, f.typeHints = .error e →
      generateSchema f =
        generateSchema { signature := f.signature, typeHints := .ok [] }) := by
  constructor
  · unfold generateSchema
    rw [hsig]
    exact ⟨_, rfl⟩
  · intro e he
    have hf : hintsFallback f = [] := by
      unfold hintsFallback
      rw [he]
    unfold generateSchema
    rw [hsig, hf]
    rfl

/-- Witness for the amended C9 at the hint-failing callable. -/
theorem generate_schema_hint_fallback_witness :
    (∃ s, generateSchema hintFailCallable = .ok s) ∧
    (∀ e, hintFailCallable.typeHints = .error e →
      generateSchema hintFailCallable =
        generateSchema { signature := hintFailCallable.signature, typeHints := .ok [] }) :=
  generate_schema_hint_fallback hintFailCallable [{ name := "x" }] rfl

/-- Helper: every name in the `required` list produced by the parameter
loop is the name of some listed parameter. -/
theorem genProps_required_subset (hs : List (String × TypeHint)) :
    ∀ (l : List Param) (x : String), x ∈ (genProps hs l).2 → x ∈ l.map Param.name := by
  intro l
  induction l with
  | nil => intro x hx; simp [genProps] at hx
  | cons p rest ih =>
      intro x hx
      simp only [genProps] at hx
      by_cases hskip : skipParam p
      · rw [if_pos hskip] at hx
        exact List.mem_cons_of_mem _ (ih x hx)
      · rw [if_neg hskip] at hx
        cases hdef : p.default with
        | some d =>
            rw [hdef] at hx
            exact List.mem_cons_of_mem _ (ih x hx)
        | none =>
            rw [hdef] at hx
            rcases List.mem_cons.mp hx with h | h
            · exact h ▸ List.mem_cons_self _ _
            · exact List.mem_cons_of_mem _ (ih x h)


/-- Helper: for a non-skipped parameter of a duplicate-free signature, the
parameter loop puts its name in `required` exactly when it has no default,
and stores its generated property schema under its name. -/
theorem genProps_spec (hs : List (String × TypeHint)) :
    ∀ (l : List Param) (p : Param), p ∈ l → (l.map Param.name).Nodup →
      skipParam p = false →
      ((p.name ∈ (genProps hs l).2 ↔ p.default = none) ∧
       (genProps hs l).1.find? (fun np => np.1 == p.name) =
         some (p.name, mkPropSchema hs p)) := by
  intro l
  induction l with
  | nil => intro p hp _ _; cases hp
  | cons q rest ih =>
      intro p hp hnd hskip
      rw [List.map_cons, List.nodup_cons] at hnd
      obtain ⟨hqnotin, hnd2⟩ := hnd
      rcases List.mem_cons.mp hp with rfl | hprest
      · -- the parameter is the head of the signature
        constructor
        · cases hdef : p.default with
          | none => simp [genProps, hskip, hdef]
          | some d =>
              simp [genProps, hskip, hdef]
              intro hmem
              exact absurd (genProps_required_subset hs rest p.name hmem) hqnotin
        · have hp1 : (genProps hs (p :: rest)).1 =
              (p.name, mkPropSchema hs p) :: (genProps hs rest).1 := by
            simp [genProps, hskip]
          rw [hp1]
          exact List.find?_cons_of_pos _ (by simp)
      · -- the parameter occurs in the tail
        have hpq : (q.name == p.name) = false := by
          cases hbe : q.name == p.name with
          | true =>
              have hmemname : p.name ∈ List.map Param.name rest :=
                List.mem_map_of_mem Param.name hprest
              rw [← eq_of_beq hbe] at hmemname
              exact absurd hmemname hqnotin
          | false => rfl
        have IH := ih p hprest hnd2 hskip
        cases hskq : skipParam q with
        | true =>
            have hall : genProps hs (q :: rest) = genProps hs rest := by
              simp [genProps, hskq]
            rw [hall]
            exact IH
        | false =>
            constructor
            · have hreq2 : (genProps hs (q :: rest)).2 =
                  match q.default with
                  | some _ => (genProps hs rest).2
                  | none => q.name :: (genProps hs rest).2 := by
                simp [genProps, hskq]
              rw [hreq2]
              cases q.default with
              | some d => exact IH.1
              | none =>
                  rw [List.mem_cons]
                  constructor
                  · rintro (h | h)
                    · rw [h] at hpq
                      simp at hpq
                    · exact IH.1.mp h
                  · intro hh
                    exact Or.inr (IH.1.mpr hh)
            · have hp1 : (genProps hs (q :: rest)).1 =
                  (q.name, mkPropSchema hs q) :: (genProps hs rest).1 := by
                simp [genProps, hskq]
              rw [hp1]
              rw [List.find?_cons_of_neg _ (by simp [hpq])]
              exact IH.2

/-- Claim C8: for every callable whose signature is introspectable and has
no duplicate parameter names (Python signatures never do), a non-variadic,
non-`self`/`cls` parameter is in the generated schema's `required` set iff
it has no default value, and a defaulted parameter carries its default in
its per-property schema. -/
theorem generate_schema_required_iff (f : PyCallable) (params : List Param)
    (s : Schema) (p : Param)
    (hsig : f.signature = .ok params)
    (hnd : (params.map Param.name).Nodup)
    (hgen : generateSchema f = .ok s)
    (hp : p ∈ params)
    (hskip : skipParam p = false) :
    (p.name ∈ s.required ↔ p.default = none) ∧
    (∀ d, p.default = some d →
      ∃ ps, (s.properties.find? (fun np => np.1 == p.name)).map (fun np => np.2) =
          some ps ∧
        ps.default = some d) := by
  unfold generateSchema at hgen
  rw [hsig] at hgen
  have hinj : Schema.mk (genProps (hintsFallback f) params).1
      (genProps (hintsFallback f) params).2 = s :=
    Except.ok.inj hgen
  obtain ⟨hreq, hfind⟩ := genProps_spec (hintsFallback f) params p hp hnd hskip
  subst hinj
  refine ⟨hreq, ?_⟩
  intro d hd
  refine ⟨mkPropSchema (hintsFallback f) p, ?_, ?_⟩
  · show ((genProps (hintsFallback f) params).1.find? (fun np => np.1 == p.name)).map
        (fun np => np.2) = some (mkPropSchema (hintsFallback f) p)
    rw [hfind]
    rfl
  · simp [mkPropSchema, hd]

/-- Witness for C8 at `sampleCallable`: the defaulted parameter `y` is not
required and its property schema carries the default `5`. -/
theorem generate_schema_required_iff_witness :
    ("y" ∈ sampleGenSchema.required ↔ (some (PyValue.vInt 5) : Option PyValue) = none) ∧
    (∀ d, (some (PyValue.vInt 5) : Option PyValue) = some d →
      ∃ ps, (sampleGenSchema.properties.find? (fun np => np.1 == "y")).map (fun np => np.2) =
          some ps ∧
        ps.default = some d) :=
  generate_schema_required_iff sampleCallable
    [{ name := "self" }, { name := "x" }, { name := "y", default := some (.vInt 5) }]
    sampleGenSchema sampleParamY rfl (by decide) rfl (by decide) rfl

/-! ## Claims C1 and C2: the agent loop -/

/-- A loop state with an empty conversation, for concrete scenarios. -/
def sampleSt : LoopSt := { conv := [], usage := {}, tcm := 0, ptc := false }

/-- A backend that always requests one tool call with well-formed (empty
JSON object) arguments. -/
def alwaysToolCallProvider : Provider :=
  fun _ _ => ({ role := "assistant", tool_calls := some [⟨"call_1", "mytool", "\x7b\x7d"⟩] }, {})

/-- A backend that always requests one tool call whose arguments string is
not JSON. -/
def badArgsProvider : Provider :=
  fun _ _ => ({ role := "assistant", tool_calls := some [⟨"call_1", "mytool", "not json"⟩] }, {})

/-- Claim C2: when executing a requested call through the registry raises
any error (unknown tool name, executor fault, sandbox failure), the error
does not escape the loop body; instead a tool-role message whose content is
`"Error: <message>"`, tagged with the originating call id and tool name, is
appended to the conversation and processing continues (the step returns
normally). -/
theorem agent_tool_error_contained (reg : ToolRegistry)
    (parse : String → Except PyErr ArgDict) (st : LoopSt) (tc : ToolCallReq)
    (args : ArgDict) (e : PyErr)
    (hparse : parse tc.args = .ok args)
    (hexec : reg.executeM tc.name args = .error e) :
    ∃ st2, Agent.processToolCall reg parse st tc = .ok st2 ∧
      st2.conv = st.conv ++ [{ role := "tool",
                               content := some ("Error: " ++ pyErrMsg e),
                               tool_call_id := some tc.id,
                               name := some tc.name }] := by
  simp only [Agent.processToolCall, hparse, hexec]
  exact ⟨_, rfl, rfl⟩

/-- Witness for C2: a call to an unregistered tool name is answered by an
`"Error: ..."` tool message carrying the registry's lookup error. -/
theorem agent_tool_error_contained_witness :
    ∃ st2, Agent.processToolCall emptyRegistry jsonLoads sampleSt
        ⟨"call_1", "foo", "\x7b\x7d"⟩ = .ok st2 ∧
      st2.conv = [] ++ [{ role := "tool",
                          content := some ("Error: " ++
                            pyErrMsg (.toolError "Tool \x27foo\x27 not found. Available: ")),
                          tool_call_id := some "call_1",
                          name := some "foo" }] :=
  agent_tool_error_contained emptyRegistry jsonLoads sampleSt
    ⟨"call_1", "foo", "\x7b\x7d"⟩ [] (.toolError "Tool \x27foo\x27 not found. Available: ")
    rfl rfl

/-- Helper: sequential dispatch succeeds whenever every requested call's
arguments string parses. -/
theorem processToolCalls_ok (reg : ToolRegistry)
    (parse : String → Except PyErr ArgDict) :
    ∀ (calls : List ToolCallReq) (st : LoopSt),
      (∀ tc ∈ calls, ∃ a, parse tc.args = .ok a) →
      ∃ st2, Agent.processToolCalls reg parse st calls = .ok st2 := by
  intro calls
  induction calls with
  | nil => intro st _; exact ⟨st, rfl⟩
  | cons tc rest ih =>
      intro st hall
      obtain ⟨a, ha⟩ := hall tc (List.mem_cons_self tc rest)
      have hstep : ∃ st1, Agent.processToolCall reg parse st tc = .ok st1 := by
        simp only [Agent.processToolCall, ha]
        exact ⟨_, rfl⟩
      obtain ⟨st1, h1⟩ := hstep
      obtain ⟨st2, h2⟩ := ih st1 (fun tc2 htc2 => hall tc2 (List.mem_cons_of_mem tc htc2))
      refine ⟨st2, ?_⟩
      simp only [Agent.processToolCalls, h1, h2]

/-- Helper: with a backend that requests at least one tool call on every
round and arguments that always parse, the loop runs its full fuel and
falls off the end with the sentinel result. -/
theorem runLoop_always_tools (provider : Provider) (reg : ToolRegistry)
    (parse : String → Except PyErr ArgDict)
    (h1 : ∀ conv tools, ((provider conv tools).1).hasToolCalls = true)
    (h2 : ∀ conv tools tc, tc ∈ ((provider conv tools).1).tool_calls.getD [] →
      ∃ a, parse tc.args = .ok a) :
    ∀ (n : Nat) (st : LoopSt),
      ∃ r, Agent.runLoop provider reg parse n st = .ok (r, n) ∧
        r.output = "[Max iterations reached]" := by
  intro n
  induction n with
  | zero => intro st; exact ⟨_, rfl, rfl⟩
  | succ n ih =>
      intro st
      obtain ⟨st2, hst2⟩ := processToolCalls_ok reg parse
        (((provider st.conv reg.getAll).1).tool_calls.getD [])
        { conv := st.conv ++ [(provider st.conv reg.getAll).1],
          usage := addTokens st.usage (provider st.conv reg.getAll).2,
          tcm := st.tcm, ptc := st.ptc }
        (fun tc htc => h2 st.conv reg.getAll tc htc)
      obtain ⟨r, hr, hout⟩ := ih st2
      refine ⟨r, ?_, hout⟩
      simp only [Agent.runLoop, h1 st.conv reg.getAll, hst2, hr]
      simp

/-- Claim C1 as amended: for every agent whose model backend requests at
least one tool call on every iteration AND whose requested calls all carry
argument strings that parse as JSON, `Agent.run` terminates after exactly
`max_iterations` iterations and returns (rather than raising) an
`AgentResult` whose output is the fixed `"[Max iterations reached]"`
sentinel, together with the accumulated usage and message history. -/
theorem agent_run_max_iterations (provider : Provider) (reg : ToolRegistry)
    (parse : String → Except PyErr ArgDict) (systemPrompt : Option String)
    (maxIterations : Nat) (prompt : String) (messages : List Message)
    (h1 : ∀ conv tools, ((provider conv tools).1).hasToolCalls = true)
    (h2 : ∀ conv tools tc, tc ∈ ((provider conv tools).1).tool_calls.getD [] →
      ∃ a, parse tc.args = .ok a) :
    ∃ r, Agent.runM provider reg parse systemPrompt maxIterations prompt messages =
        .ok (r, maxIterations) ∧
      r.output = "[Max iterations reached]" := by
  unfold Agent.runM
  exact runLoop_always_tools provider reg parse h1 h2 maxIterations _

/-- Witness for the amended C1: a backend that always asks for one
`mytool` call with `"{}"` arguments makes a two-iteration run end with the
sentinel after exactly two iterations. -/
theorem agent_run_max_iterations_witness :
    ∃ r, Agent.runM alwaysToolCallProvider emptyRegistry jsonLoads none 2 "hello" [] =
        .ok (r, 2) ∧
      r.output = "[Max iterations reached]" :=
  agent_run_max_iterations alwaysToolCallProvider emptyRegistry jsonLoads none 2 "hello" []
    (fun _ _ => rfl)
    (fun conv tools tc htc => by
      have heq : tc = ⟨"call_1", "mytool", "\x7b\x7d"⟩ := List.mem_singleton.mp htc
      rw [heq]
      exact ⟨[], rfl⟩)

/-- Counterexample to claim C1 as stated: a backend that requests a tool
call on every iteration, but whose arguments string is not JSON, makes
`Agent.run` raise `json.JSONDecodeError` out of the loop (the `json.loads`
call sits outside the `try` that guards execution), instead of returning
the sentinel result after `max_iterations` iterations. -/
theorem agent_run_max_iterations_counterexample :
    (∀ conv tools, ((badArgsProvider conv tools).1).hasToolCalls = true) ∧
    Agent.runM badArgsProvider emptyRegistry jsonLoads none 3 "hi" [] =
      .error (.jsonError "Expecting value: line 1 column 1 (char 0)") :=
  ⟨fun _ _ => rfl, rfl⟩
